import Mathlib

/-!
Shallow embedding of the session-based authentication subsystem of the
Wolf of Wall Street.site backend (src/main.py, src/schemas.py), together
with the owner-scoped watchlist deletion endpoint.

Modelling conventions:
* MongoDB collections are lists of documents; `find_one` returns the first
  document matching the filter, `insert_one` appends, `delete_one` removes
  the first matching document.
* Document ids (Mongo `ObjectId`) are strings; the `str`/`ObjectId`
  conversions in the source are mutually inverse coercions and are elided.
* The nondeterministic inputs of a request — the id the store assigns on
  insertion, the fresh token from `secrets.token_urlsafe(32)`, and every
  clock reading (each `datetime.now(timezone.utc)` call is a separate
  parameter, in call order) — are explicit parameters of each handler.
* The digest function `sha256(...).hexdigest()` is an arbitrary parameter
  `H : String -> String`; the code under verification only applies it.
* Timestamps count seconds; `timedelta(days=7)` is 604800 seconds.
-/

namespace Backend

/-- A FastAPI HTTPException: status code and detail message. -/
structure HTTPError where
  status : Nat
  detail : String
deriving Repr, DecidableEq

/-- A document of the `user` collection: schemas.User plus the id the store
assigned on insertion. -/
structure UserDoc where
  id : String
  name : String
  email : String
  hashed_password : String
  avatar_url : Option String
  plan : String
  created_at : Nat
  updated_at : Nat
deriving Repr, DecidableEq

/-- A document of the `session` collection (main.py lines 75-80 and 90-95). -/
structure SessionDoc where
  user_id : String
  token : String
  created_at : Nat
  expires_at : Nat
deriving Repr, DecidableEq

/-- A document of the `watchlistitem` collection. -/
structure WatchlistDoc where
  id : String
  user_id : String
  symbol : String
  note : Option String
  created_at : Nat
deriving Repr, DecidableEq

/-- The persistent store, restricted to the collections the verified
endpoints touch. -/
structure DB where
  users : List UserDoc
  sessions : List SessionDoc
  watchlist : List WatchlistDoc
deriving Repr, DecidableEq

/-- Mongo `find_one`: the first document of the collection satisfying the
filter, if any. -/
def find_one {α : Type} (p : α → Bool) : List α → Option α
  | [] => none
  | x :: xs => if p x then some x else find_one p xs

/-- Mongo `delete_one`: remove the first document satisfying the filter. -/
def delete_one {α : Type} (p : α → Bool) : List α → List α
  | [] => []
  | x :: xs => if p x then xs else x :: delete_one p xs

/-- Python `s.startswith(pre)`. -/
def startswith (s pre : String) : Bool :=
  s.data.take pre.data.length == pre.data

/-- Drop the first `n` characters of a string.  In `require_auth` the header
is only split after the check `authorization.startswith("Bearer ")` passed,
so the first space sits at index 6 and Python's
`authorization.split(" ", 1)[1]` is exactly the string without its first
7 characters. -/
def dropChars (s : String) (n : Nat) : String :=
  String.mk (s.data.drop n)

/-- Utility `hash_password` of main.py: the SHA-256 hex digest of the
encoded password.  The digest function itself is the parameter `H`. -/
def hash_password (H : String → String) (password : String) : String :=
  H password

/-- Python `timedelta(days=7)`, in seconds. -/
def sevenDays : Nat := 7 * 24 * 60 * 60

/-- The value returned by a successful `require_auth` guard: the resolved
user record and the resolved session record. -/
structure Principal where
  user : UserDoc
  session : SessionDoc
deriving Repr, DecidableEq

/-- The guard `require_auth` of main.py (lines 31-41).  `authorization` is
the raw Authorization header, absent or present. -/
def require_auth (db : DB) (authorization : Option String) :
    Except HTTPError Principal :=
  match authorization with
  | none => .error ⟨401, "Missing token"⟩
  | some a =>
    if a == "" || !(startswith a "Bearer ") then
      .error ⟨401, "Missing token"⟩
    else
      let token := dropChars a 7
      match find_one (fun s => s.token == token) db.sessions with
      | none => .error ⟨401, "Invalid token"⟩
      | some session =>
        match find_one (fun u => u.id == session.user_id) db.users with
        | none => .error ⟨401, "User not found"⟩
        | some user => .ok ⟨user, session⟩

/-- Request body of POST /auth/signup. -/
structure SignupRequest where
  name : String
  email : String
  password : String
deriving Repr, DecidableEq

/-- Request body of POST /auth/login. -/
structure LoginRequest where
  email : String
  password : String
deriving Repr, DecidableEq

/-- The public user view `{id, name, email}` returned by signup and login. -/
structure PublicUser where
  id : String
  name : String
  email : String
deriving Repr, DecidableEq

/-- The payload of a successful signup or login: the token and the public
user view. -/
structure AuthResult where
  token : String
  user : PublicUser
deriving Repr, DecidableEq

/-- Modelled from the spec: `create_document` is defined in `database.py`,
which is not among the sources; per the spec the User Store `create`
operation persists the record and returns the newly assigned identity.
The assigned id arrives in the `id` field of `doc`, chosen by the request
parameter `user_id` of `signup`. -/
def create_document_user (db : DB) (doc : UserDoc) : String × DB :=
  (doc.id, { db with users := db.users ++ [doc] })

/-- Handler of POST /auth/signup (main.py lines 61-81).  `user_id` is the
id the store assigns to the new user, `token` the value of
`secrets.token_urlsafe(32)`.  The handler reads the clock four times —
main.py lines 70, 71, 78 and 79 each call `datetime.now(timezone.utc)` —
so every reading is its own parameter, in call order: `now₁` becomes the
user's created_at, `now₂` the user's updated_at, `now₃` the session's
created_at, and `now₄` is the reading the session's expiry is computed
from.  Returns the response (or the raised error) together with the
resulting store. -/
def signup (H : String → String) (db : DB) (payload : SignupRequest)
    (user_id : String) (token : String) (now₁ now₂ now₃ now₄ : Nat) :
    Except HTTPError AuthResult × DB :=
  match find_one (fun u => u.email == payload.email) db.users with
  | some _ => (.error ⟨400, "Email already registered"⟩, db)
  | none =>
    let user : UserDoc :=
      { id := user_id, name := payload.name, email := payload.email
        hashed_password := hash_password H payload.password
        avatar_url := none, plan := "free", created_at := now₁, updated_at := now₂ }
    let created := create_document_user db user
    let sess : SessionDoc :=
      { user_id := created.1, token := token, created_at := now₃
        expires_at := now₄ + sevenDays }
    (.ok { token := token
           user := { id := created.1, name := user.name, email := user.email } },
     { created.2 with sessions := created.2.sessions ++ [sess] })

/-- Handler of POST /auth/login (main.py lines 84-96).  `token` is the
value of `secrets.token_urlsafe(32)`.  The session insert reads the clock
twice — main.py lines 93 and 94 each call `datetime.now(timezone.utc)` —
so `now₁` is the reading stored as created_at and `now₂` the reading the
expiry is computed from. -/
def login (H : String → String) (db : DB) (payload : LoginRequest)
    (token : String) (now₁ now₂ : Nat) : Except HTTPError AuthResult × DB :=
  match find_one (fun u => u.email == payload.email) db.users with
  | none => (.error ⟨401, "Invalid credentials"⟩, db)
  | some user =>
    if user.hashed_password != hash_password H payload.password then
      (.error ⟨401, "Invalid credentials"⟩, db)
    else
      let sess : SessionDoc :=
        { user_id := user.id, token := token, created_at := now₁
          expires_at := now₂ + sevenDays }
      (.ok { token := token
             user := { id := user.id, name := user.name, email := user.email } },
       { db with sessions := db.sessions ++ [sess] })

/-- A JSON value as the handlers build them: a string, a boolean, or a flat
object of string fields. -/
inductive JVal where
  | s (v : String)
  | b (v : Bool)
  | o (fields : List (String × String))
deriving Repr, DecidableEq

/-- A response dict: keys paired with values. -/
abbrev Resp := List (String × JVal)

/-- Keys contributed by a value: the field names of a nested object. -/
def JVal.keys : JVal → List String
  | .s _ => []
  | .b _ => []
  | .o fields => fields.map Prod.fst

/-- Every key occurring in a response dict, nested object keys included. -/
def allKeys : Resp → List String
  | [] => []
  | (k, v) :: rest => k :: (v.keys ++ allKeys rest)

/-- The response dict of a successful signup or login (main.py lines 81
and 96): the token plus the public user view. -/
def authResponse (r : AuthResult) : Resp :=
  [("token", .s r.token),
   ("user", .o [("id", r.user.id), ("name", r.user.name), ("email", r.user.email)])]

/-- The response dict of GET /me for the resolved user (main.py line 102). -/
def meResponse (u : UserDoc) : Resp :=
  [("id", .s u.id), ("name", .s u.name), ("email", .s u.email), ("plan", .s u.plan)]

/-- Endpoint GET /me (main.py lines 99-102): the guard, then the public
view of the resolved user. -/
def me (db : DB) (authorization : Option String) : Except HTTPError Resp :=
  (require_auth db authorization).map (fun ctx => meResponse ctx.user)

/-- Handler of DELETE /watchlist for a given item id (main.py lines
143-148), run for the already-authenticated principal `ctx`.  Deletes the
first document whose id and owning user id both match; raises 404 when the
filter matches nothing (`deleted_count == 0`). -/
def delete_watchlist (db : DB) (item_id : String) (ctx : Principal) :
    Except HTTPError Resp × DB :=
  match find_one (fun i => i.id == item_id && i.user_id == ctx.user.id) db.watchlist with
  | none => (.error ⟨404, "Item not found"⟩, db)
  | some _ =>
    (.ok [("ok", .b true)],
     { db with watchlist :=
         delete_one (fun i => i.id == item_id && i.user_id == ctx.user.id) db.watchlist })

/-! Concrete fixtures used to instantiate the theorems. -/

/-- A concrete stand-in for the digest function, used only to instantiate
theorems at specific inputs. -/
def sampleHash (s : String) : String := s ++ "#"

/-- A concrete user record as signup would create it. -/
def adaUser : UserDoc :=
  { id := "u1", name := "Ada", email := "ada@example.com"
    hashed_password := sampleHash "wolf123", avatar_url := none
    plan := "free", created_at := 0, updated_at := 0 }

/-- A concrete session owned by `adaUser`. -/
def adaSession : SessionDoc :=
  { user_id := "u1", token := "T1", created_at := 0, expires_at := sevenDays }

/-- A concrete watchlist item owned by `adaUser`. -/
def adaItem : WatchlistDoc :=
  { id := "w1", user_id := "u1", symbol := "AAPL", note := none, created_at := 0 }

/-- A concrete watchlist item owned by a different user. -/
def bobItem : WatchlistDoc :=
  { id := "w2", user_id := "u2", symbol := "TSLA", note := none, created_at := 0 }

/-- A concrete store with one user, one session and two watchlist items. -/
def sampleDB : DB :=
  { users := [adaUser], sessions := [adaSession], watchlist := [adaItem, bobItem] }

/-! Helper lemmas about the store primitives. -/

theorem find_one_eq_none {α : Type} {p : α → Bool} {l : List α} :
    find_one p l = none ↔ ∀ x ∈ l, p x = false := by
  induction l with
  | nil => simp [find_one]
  | cons x xs ih =>
    by_cases hx : p x = true
    · simp [find_one, hx]
    · simp only [Bool.not_eq_true] at hx
      simp [find_one, hx, ih]

theorem find_one_eq_some_mem {α : Type} {p : α → Bool} {l : List α} {a : α}
    (h : find_one p l = some a) : a ∈ l ∧ p a = true := by
  induction l with
  | nil => simp [find_one] at h
  | cons x xs ih =>
    by_cases hx : p x = true
    · simp [find_one, hx] at h
      subst h; exact ⟨List.mem_cons_self x xs, hx⟩
    · simp only [Bool.not_eq_true] at hx
      simp [find_one, hx] at h
      rcases ih h with ⟨hm, hp⟩
      exact ⟨List.mem_cons_of_mem x hm, hp⟩

theorem find_one_isSome_of_mem {α : Type} {p : α → Bool} {l : List α} {a : α}
    (hm : a ∈ l) (hp : p a = true) : ∃ b, find_one p l = some b := by
  cases hf : find_one p l with
  | some b => exact ⟨b, rfl⟩
  | none => exact absurd hp (by simp [find_one_eq_none.mp hf a hm])

theorem find_one_append_some {α : Type} {p : α → Bool} {l₁ l₂ : List α} {a : α}
    (h : find_one p l₁ = some a) : find_one p (l₁ ++ l₂) = some a := by
  induction l₁ with
  | nil => simp [find_one] at h
  | cons x xs ih =>
    by_cases hx : p x = true
    · simp [find_one, hx] at h ⊢; exact h
    · simp only [Bool.not_eq_true] at hx
      simp [find_one, hx] at h ⊢; exact ih h

theorem find_one_append_none {α : Type} {p : α → Bool} {l₁ l₂ : List α}
    (h : find_one p l₁ = none) : find_one p (l₁ ++ l₂) = find_one p l₂ := by
  induction l₁ with
  | nil => simp
  | cons x xs ih =>
    by_cases hx : p x = true
    · simp [find_one, hx] at h
    · simp only [Bool.not_eq_true] at hx
      simp [find_one, hx] at h ⊢; exact ih h

theorem find_one_some_split {α : Type} {p : α → Bool} {l : List α} {a : α}
    (h : find_one p l = some a) :
    ∃ l₁ l₂, l = l₁ ++ a :: l₂ ∧ (∀ x ∈ l₁, p x = false) ∧
      delete_one p l = l₁ ++ l₂ := by
  induction l with
  | nil => simp [find_one] at h
  | cons x xs ih =>
    by_cases hx : p x = true
    · simp [find_one, hx] at h
      subst h
      exact ⟨[], xs, by simp, by simp, by simp [delete_one, hx]⟩
    · simp only [Bool.not_eq_true] at hx
      simp [find_one, hx] at h
      rcases ih h with ⟨l₁, l₂, hsplit, hall, hdel⟩
      refine ⟨x :: l₁, l₂, by simp [hsplit], ?_, by simp [delete_one, hx, hdel]⟩
      intro y hy
      rcases List.mem_cons.mp hy with hy | hy
      · subst hy; exact hx
      · exact hall y hy

theorem delete_one_of_none {α : Type} {p : α → Bool} {l : List α}
    (h : find_one p l = none) : delete_one p l = l := by
  induction l with
  | nil => simp [delete_one]
  | cons x xs ih =>
    by_cases hx : p x = true
    · simp [find_one, hx] at h
    · simp only [Bool.not_eq_true] at hx
      simp [find_one, hx] at h
      simp [delete_one, hx, ih h]

theorem startswith_bearer_ne_empty {a : String}
    (h : startswith a "Bearer " = true) : (a == "") = false := by
  have ha : ¬ a = "" := by
    intro e
    subst e
    exact absurd h (by decide)
  simpa using ha

/-- When the header passes the Bearer check, the guard reduces to session
lookup followed by user lookup. -/
theorem require_auth_of_startswith (db : DB) (a : String)
    (h : startswith a "Bearer " = true) :
    require_auth db (some a) =
      match find_one (fun s => s.token == dropChars a 7) db.sessions with
      | none => .error ⟨401, "Invalid token"⟩
      | some session =>
        match find_one (fun u => u.id == session.user_id) db.users with
        | none => .error ⟨401, "User not found"⟩
        | some user => .ok ⟨user, session⟩ := by
  simp only [require_auth, startswith_bearer_ne_empty h, h, Bool.not_true,
    Bool.or_false, Bool.false_eq_true, if_false]

theorem require_auth_missing_iff (db : DB) (authorization : Option String) :
    require_auth db authorization = .error ⟨401, "Missing token"⟩ ↔
      authorization = none ∨
        ∃ a, authorization = some a ∧ ¬ startswith a "Bearer " = true := by
  cases authorization with
  | none => simp [require_auth]
  | some a =>
    by_cases hpre : startswith a "Bearer " = true
    · rw [require_auth_of_startswith db a hpre]
      constructor
      · intro h
        cases hs : find_one (fun s => s.token == dropChars a 7) db.sessions with
        | none => rw [hs] at h; simp at h
        | some session =>
          rw [hs] at h
          cases hu : find_one (fun u => u.id == session.user_id) db.users with
          | none => simp [hu] at h
          | some user => simp [hu] at h
      · intro h
        simp [hpre] at h
    · constructor
      · intro _
        exact Or.inr ⟨a, rfl, hpre⟩
      · intro _
        have hsw : startswith a "Bearer " = false := by
          simpa using hpre
        simp [require_auth, hsw]

theorem require_auth_invalid_iff (db : DB) (authorization : Option String) :
    require_auth db authorization = .error ⟨401, "Invalid token"⟩ ↔
      ∃ a, authorization = some a ∧ startswith a "Bearer " = true ∧
        ∀ s ∈ db.sessions, ¬ s.token = dropChars a 7 := by
  cases authorization with
  | none => simp [require_auth]
  | some a =>
    by_cases hpre : startswith a "Bearer " = true
    · rw [require_auth_of_startswith db a hpre]
      constructor
      · intro h
        cases hs : find_one (fun s => s.token == dropChars a 7) db.sessions with
        | none =>
          refine ⟨a, rfl, hpre, ?_⟩
          intro s hm he
          have := find_one_eq_none.mp hs s hm
          rw [he] at this
          simp at this
        | some session =>
          rw [hs] at h
          cases hu : find_one (fun u => u.id == session.user_id) db.users with
          | none => simp [hu] at h
          | some user => simp [hu] at h
      · rintro ⟨a', ha', hpre', hall⟩
        cases ha'
        cases hs : find_one (fun s => s.token == dropChars a 7) db.sessions with
        | none => simp [hs]
        | some session =>
          exfalso
          rcases find_one_eq_some_mem hs with ⟨hm, hp⟩
          exact hall session hm (by simpa using hp)
    · constructor
      · intro h
        exfalso
        have hmiss : require_auth db (some a) = .error ⟨401, "Missing token"⟩ :=
          (require_auth_missing_iff db (some a)).mpr (Or.inr ⟨a, rfl, hpre⟩)
        rw [h] at hmiss
        simp at hmiss
      · rintro ⟨a', ha', hpre', _⟩
        cases ha'
        exact absurd hpre' hpre

/-- C4: the guard fails with MissingToken (401) exactly when the
Authorization header is absent or does not start with the Bearer scheme
prefix, and fails with InvalidToken (401) exactly when the header is
well-formed but the extracted token matches no stored session's token. -/
theorem guard_error_classification (db : DB) (authorization : Option String) :
    (require_auth db authorization = .error ⟨401, "Missing token"⟩ ↔
       authorization = none ∨
         ∃ a, authorization = some a ∧ ¬ startswith a "Bearer " = true) ∧
    (require_auth db authorization = .error ⟨401, "Invalid token"⟩ ↔
       ∃ a, authorization = some a ∧ startswith a "Bearer " = true ∧
         ∀ s ∈ db.sessions, ¬ s.token = dropChars a 7) :=
  ⟨require_auth_missing_iff db authorization,
   require_auth_invalid_iff db authorization⟩

/-- C9: a header that is exactly the scheme prefix followed by the empty
token passes the prefix check, so the guard does not fail with
MissingToken; the empty string is looked up as a token, and when no stored
session has the empty token the guard fails with InvalidToken. -/
theorem bearer_empty_token (db : DB) :
    require_auth db (some "Bearer ") ≠ .error ⟨401, "Missing token"⟩ ∧
    ((∀ s ∈ db.sessions, ¬ s.token = "") →
      require_auth db (some "Bearer ") = .error ⟨401, "Invalid token"⟩) := by
  constructor
  · intro h
    have := (require_auth_missing_iff db (some "Bearer ")).mp h
    simp at this
    exact absurd this (by decide)
  · intro hall
    refine (require_auth_invalid_iff db (some "Bearer ")).mpr
      ⟨"Bearer ", rfl, by decide, ?_⟩
    intro s hm
    have : dropChars "Bearer " 7 = "" := by decide
    rw [this]
    exact hall s hm

/-- Witness for C9, at the empty store. -/
theorem bearer_empty_token_witness :
    (∀ s ∈ (⟨[], [], []⟩ : DB).sessions, ¬ s.token = "") ∧
    require_auth ⟨[], [], []⟩ (some "Bearer ") = .error ⟨401, "Invalid token"⟩ :=
  ⟨by simp, (bearer_empty_token ⟨[], [], []⟩).2 (by simp)⟩

/-! Evaluation lemmas for the login and signup handlers. -/

theorem login_no_user {H : String → String} {db : DB} {payload : LoginRequest}
    {token : String} {now₁ now₂ : Nat}
    (hf : find_one (fun u => u.email == payload.email) db.users = none) :
    login H db payload token now₁ now₂ =
      (.error ⟨401, "Invalid credentials"⟩, db) := by
  simp [login, hf]

theorem login_wrong_password {H : String → String} {db : DB}
    {payload : LoginRequest} {token : String} {now₁ now₂ : Nat} {user : UserDoc}
    (hf : find_one (fun u => u.email == payload.email) db.users = some user)
    (hd : ¬ user.hashed_password = hash_password H payload.password) :
    login H db payload token now₁ now₂ =
      (.error ⟨401, "Invalid credentials"⟩, db) := by
  simp [login, hf, hd]

theorem login_ok {H : String → String} {db : DB} {payload : LoginRequest}
    {token : String} {now₁ now₂ : Nat} {user : UserDoc}
    (hf : find_one (fun u => u.email == payload.email) db.users = some user)
    (hd : user.hashed_password = hash_password H payload.password) :
    login H db payload token now₁ now₂ =
      (.ok ⟨token, ⟨user.id, user.name, user.email⟩⟩,
       { db with sessions :=
           db.sessions ++ [⟨user.id, token, now₁, now₂ + sevenDays⟩] }) := by
  simp [login, hf, hd]

theorem signup_duplicate {H : String → String} {db : DB}
    {payload : SignupRequest} {user_id token : String}
    {now₁ now₂ now₃ now₄ : Nat} {u : UserDoc}
    (hf : find_one (fun u => u.email == payload.email) db.users = some u) :
    signup H db payload user_id token now₁ now₂ now₃ now₄ =
      (.error ⟨400, "Email already registered"⟩, db) := by
  simp [signup, hf]

theorem signup_ok {H : String → String} {db : DB} {payload : SignupRequest}
    {user_id token : String} {now₁ now₂ now₃ now₄ : Nat}
    (hf : find_one (fun u => u.email == payload.email) db.users = none) :
    signup H db payload user_id token now₁ now₂ now₃ now₄ =
      (.ok ⟨token, ⟨user_id, payload.name, payload.email⟩⟩,
       { users := db.users ++
           [⟨user_id, payload.name, payload.email,
             hash_password H payload.password, none, "free", now₁, now₂⟩]
         sessions := db.sessions ++ [⟨user_id, token, now₃, now₄ + sevenDays⟩]
         watchlist := db.watchlist }) := by
  simp [signup, hf, create_document_user]

/-- C1: Login succeeds exactly when a user with the supplied email exists
and the digest of the supplied password equals the stored digest; any
failure is the same 401 Invalid credentials error, whether the email was
unknown or the password wrong. -/
theorem login_succeeds_iff (H : String → String) (db : DB)
    (payload : LoginRequest) (token : String) (now₁ now₂ : Nat)
    (hunique : (db.users.map UserDoc.email).Nodup) :
    ((∃ r, (login H db payload token now₁ now₂).1 = .ok r) ↔
       ∃ u ∈ db.users, u.email = payload.email ∧
         u.hashed_password = hash_password H payload.password) ∧
    (∀ e, (login H db payload token now₁ now₂).1 = .error e →
       e = ⟨401, "Invalid credentials"⟩) := by
  cases hf : find_one (fun u => u.email == payload.email) db.users with
  | none =>
    rw [login_no_user hf]
    constructor
    · constructor
      · rintro ⟨r, hr⟩; simp at hr
      · rintro ⟨u, hm, he, -⟩
        have := find_one_eq_none.mp hf u hm
        rw [he] at this
        simp at this
    · intro e he
      simpa using he.symm
  | some user =>
    by_cases hd : user.hashed_password = hash_password H payload.password
    · rw [login_ok hf hd]
      rcases find_one_eq_some_mem hf with ⟨hm, hp⟩
      constructor
      · constructor
        · intro _
          exact ⟨user, hm, by simpa using hp, hd⟩
        · intro _
          exact ⟨_, rfl⟩
      · intro e he
        simp at he
    · rw [login_wrong_password hf hd]
      rcases find_one_eq_some_mem hf with ⟨hm, hp⟩
      have hpe : user.email = payload.email := by simpa using hp
      constructor
      · constructor
        · rintro ⟨r, hr⟩; simp at hr
        · rintro ⟨u, hm', he', hd'⟩
          exfalso
          have heq : u = user :=
            List.inj_on_of_nodup_map hunique hm' hm (by rw [he', hpe])
          rw [heq] at hd'
          exact hd hd'
      · intro e he
        simpa using he.symm

/-- Witness for C1, at a store holding exactly Ada's record. -/
theorem login_succeeds_iff_witness :
    ((sampleDB.users.map UserDoc.email).Nodup) ∧
    (((∃ r, (login sampleHash sampleDB ⟨"ada@example.com", "wolf123"⟩
            "T2" 9 10).1 = .ok r) ↔
       ∃ u ∈ sampleDB.users, u.email = "ada@example.com" ∧
         u.hashed_password = hash_password sampleHash "wolf123") ∧
     (∀ e, (login sampleHash sampleDB ⟨"ada@example.com", "wolf123"⟩
            "T2" 9 10).1 = .error e → e = ⟨401, "Invalid credentials"⟩)) :=
  ⟨by decide,
   login_succeeds_iff sampleHash sampleDB ⟨"ada@example.com", "wolf123"⟩
     "T2" 9 10 (by decide)⟩

/-- C3: signup with a fresh email succeeds and appends exactly one user
and one session; signup with an already registered email fails with 400
Email already registered and leaves the store exactly as it was. -/
theorem signup_fresh_or_duplicate (H : String → String) (db : DB)
    (payload : SignupRequest) (user_id token : String)
    (now₁ now₂ now₃ now₄ : Nat) :
    ((∀ u ∈ db.users, ¬ u.email = payload.email) →
       signup H db payload user_id token now₁ now₂ now₃ now₄ =
         (.ok ⟨token, ⟨user_id, payload.name, payload.email⟩⟩,
          { users := db.users ++
              [⟨user_id, payload.name, payload.email,
                hash_password H payload.password, none, "free", now₁, now₂⟩]
            sessions := db.sessions ++
              [⟨user_id, token, now₃, now₄ + sevenDays⟩]
            watchlist := db.watchlist })) ∧
    ((∃ u ∈ db.users, u.email = payload.email) →
       signup H db payload user_id token now₁ now₂ now₃ now₄ =
         (.error ⟨400, "Email already registered"⟩, db)) := by
  constructor
  · intro hfresh
    have hf : find_one (fun u => u.email == payload.email) db.users = none := by
      refine find_one_eq_none.mpr ?_
      intro u hm
      simpa using hfresh u hm
    exact signup_ok hf
  · rintro ⟨u, hm, he⟩
    rcases find_one_isSome_of_mem (p := fun u => u.email == payload.email) hm
        (by simpa using he) with ⟨u', hu'⟩
    exact signup_duplicate hu'

/-- Witness for C3: a fresh signup against the sample store succeeds and a
duplicate signup against it fails, leaving the store untouched. -/
theorem signup_fresh_or_duplicate_witness :
    ((∀ u ∈ sampleDB.users, ¬ u.email = "new@example.com") ∧
       signup sampleHash sampleDB ⟨"New", "new@example.com", "pw"⟩
           "u9" "T9" 3 4 5 6 =
         (.ok ⟨"T9", ⟨"u9", "New", "new@example.com"⟩⟩,
          { users := sampleDB.users ++
              [⟨"u9", "New", "new@example.com",
                hash_password sampleHash "pw", none, "free", 3, 4⟩]
            sessions := sampleDB.sessions ++ [⟨"u9", "T9", 5, 6 + sevenDays⟩]
            watchlist := sampleDB.watchlist })) ∧
    ((∃ u ∈ sampleDB.users, u.email = "ada@example.com") ∧
       signup sampleHash sampleDB ⟨"Ada2", "ada@example.com", "pw"⟩
           "u9" "T9" 3 4 5 6 =
         (.error ⟨400, "Email already registered"⟩, sampleDB)) :=
  ⟨⟨by decide,
    (signup_fresh_or_duplicate sampleHash sampleDB
      ⟨"New", "new@example.com", "pw"⟩ "u9" "T9" 3 4 5 6).1 (by decide)⟩,
   ⟨by decide,
    (signup_fresh_or_duplicate sampleHash sampleDB
      ⟨"Ada2", "ada@example.com", "pw"⟩ "u9" "T9" 3 4 5 6).2 (by decide)⟩⟩

/-- C7 as stated is false on the code: the session insert computes
created_at and the base of expires_at from two separate clock readings
(main.py lines 93 and 94), so when the second reading is later the
persisted session's expiry is not its creation time plus seven days.
Here login reads 9 then 10 and persists created_at = 9,
expires_at = 10 + 604800. -/
theorem session_expiry_exact_counterexample :
    (login sampleHash sampleDB ⟨"ada@example.com", "wolf123"⟩
        "T2" 9 10).2.sessions =
      sampleDB.sessions ++ [⟨"u1", "T2", 9, 10 + sevenDays⟩] ∧
    ¬ ((⟨"u1", "T2", 9, 10 + sevenDays⟩ : SessionDoc).expires_at =
        (⟨"u1", "T2", 9, 10 + sevenDays⟩ : SessionDoc).created_at +
          7 * 24 * 60 * 60) :=
  ⟨by rfl, by decide⟩

/-- C7 (amended): every session record persisted by signup or login has
expiry equal to seven days after the clock reading taken for the expiry
field; that reading happens after the created_at reading, so whenever the
clock is monotone across the insert the expiry is at least created_at plus
seven days, with equality exactly when the two readings coincide. -/
theorem session_expiry_seven_days_from_expiry_read (H : String → String)
    (db : DB) (ps : SignupRequest) (pl : LoginRequest)
    (user_id token : String) (now₁ now₂ now₃ now₄ nl₁ nl₂ : Nat)
    (hs : now₃ ≤ now₄) (hl : nl₁ ≤ nl₂) :
    ((signup H db ps user_id token now₁ now₂ now₃ now₄).2.sessions =
        db.sessions ∨
       ∃ s : SessionDoc,
         (signup H db ps user_id token now₁ now₂ now₃ now₄).2.sessions =
             db.sessions ++ [s] ∧
           s.expires_at = now₄ + 7 * 24 * 60 * 60 ∧
           s.created_at + 7 * 24 * 60 * 60 ≤ s.expires_at) ∧
    ((login H db pl token nl₁ nl₂).2.sessions = db.sessions ∨
       ∃ s : SessionDoc,
         (login H db pl token nl₁ nl₂).2.sessions = db.sessions ++ [s] ∧
           s.expires_at = nl₂ + 7 * 24 * 60 * 60 ∧
           s.created_at + 7 * 24 * 60 * 60 ≤ s.expires_at) := by
  constructor
  · cases hf : find_one (fun u => u.email == ps.email) db.users with
    | some u => rw [signup_duplicate hf]; exact Or.inl rfl
    | none =>
      rw [signup_ok hf]
      exact Or.inr ⟨⟨user_id, token, now₃, now₄ + sevenDays⟩, rfl, rfl,
        by simpa [sevenDays] using Nat.add_le_add_right hs (7 * 24 * 60 * 60)⟩
  · cases hf : find_one (fun u => u.email == pl.email) db.users with
    | none => rw [login_no_user hf]; exact Or.inl rfl
    | some u =>
      by_cases hd : u.hashed_password = hash_password H pl.password
      · rw [login_ok hf hd]
        exact Or.inr ⟨⟨u.id, token, nl₁, nl₂ + sevenDays⟩, rfl, rfl,
          by simpa [sevenDays] using Nat.add_le_add_right hl (7 * 24 * 60 * 60)⟩
      · rw [login_wrong_password hf hd]; exact Or.inl rfl

/-- Witness for the amended C7: signup with its session clock readings one
second apart and login likewise. -/
theorem session_expiry_seven_days_from_expiry_read_witness :
    ((3 : Nat) ≤ 4 ∧ (9 : Nat) ≤ 10) ∧
    (((signup sampleHash sampleDB ⟨"New", "new@example.com", "pw"⟩
          "u9" "T9" 1 2 3 4).2.sessions = sampleDB.sessions ∨
       ∃ s : SessionDoc,
         (signup sampleHash sampleDB ⟨"New", "new@example.com", "pw"⟩
             "u9" "T9" 1 2 3 4).2.sessions = sampleDB.sessions ++ [s] ∧
           s.expires_at = 4 + 7 * 24 * 60 * 60 ∧
           s.created_at + 7 * 24 * 60 * 60 ≤ s.expires_at) ∧
     ((login sampleHash sampleDB ⟨"ada@example.com", "wolf123"⟩
          "T9" 9 10).2.sessions = sampleDB.sessions ∨
       ∃ s : SessionDoc,
         (login sampleHash sampleDB ⟨"ada@example.com", "wolf123"⟩
             "T9" 9 10).2.sessions = sampleDB.sessions ++ [s] ∧
           s.expires_at = 10 + 7 * 24 * 60 * 60 ∧
           s.created_at + 7 * 24 * 60 * 60 ≤ s.expires_at)) :=
  ⟨⟨by decide, by decide⟩,
   session_expiry_seven_days_from_expiry_read sampleHash sampleDB
     ⟨"New", "new@example.com", "pw"⟩ ⟨"ada@example.com", "wolf123"⟩
     "u9" "T9" 1 2 3 4 9 10 (by decide) (by decide)⟩

theorem startswith_bearer_append (t : String) :
    startswith ("Bearer " ++ t) "Bearer " = true := by
  have h : ("Bearer " ++ t).data = "Bearer ".data ++ t.data :=
    String.data_append _ _
  simp [startswith, h, List.take_left]

theorem dropChars_bearer_append (t : String) :
    dropChars ("Bearer " ++ t) 7 = t := by
  have h7 : ("Bearer ".data).length = 7 := by decide
  have h : ("Bearer " ++ t).data = "Bearer ".data ++ t.data :=
    String.data_append _ _
  rw [dropChars, h, ← h7, List.drop_left]

/-- C6: token resolution never consults expiry: the guard succeeds on a
stored session and returns its owner even at a current time strictly past
the session's expiry timestamp. -/
theorem resolve_ignores_expiry (db : DB) (s : SessionDoc) (u : UserDoc)
    (now : Nat)
    (hs : find_one (fun t => t.token == s.token) db.sessions = some s)
    (hu : find_one (fun v => v.id == s.user_id) db.users = some u)
    (_hexp : s.expires_at < now) :
    require_auth db (some ("Bearer " ++ s.token)) = .ok ⟨u, s⟩ := by
  rw [require_auth_of_startswith db _ (startswith_bearer_append s.token)]
  simp only [dropChars_bearer_append]
  rw [hs]
  simp only []
  rw [hu]

/-- Witness for C6: the sample session resolves one second after its
expiry. -/
theorem resolve_ignores_expiry_witness :
    (find_one (fun t => t.token == adaSession.token) sampleDB.sessions =
        some adaSession ∧
     find_one (fun v => v.id == adaSession.user_id) sampleDB.users =
        some adaUser ∧
     adaSession.expires_at < sevenDays + 1) ∧
    require_auth sampleDB (some ("Bearer " ++ adaSession.token)) =
      .ok ⟨adaUser, adaSession⟩ :=
  ⟨⟨by decide, by decide, by decide⟩,
   resolve_ignores_expiry sampleDB adaSession adaUser (sevenDays + 1)
     (by decide) (by decide) (by decide)⟩

/-- C5: every response of signup, login and /me carries only the public
fields — token and user id, name, email, plus plan for /me — and in
particular the stored digest field hashed_password never occurs as a key
of any of these responses. -/
theorem no_digest_in_responses (H : String → String) (db : DB)
    (ps : SignupRequest) (pl : LoginRequest) (user_id token : String)
    (now₁ now₂ now₃ now₄ nl₁ nl₂ : Nat) (auth : Option String) :
    (∀ r, (signup H db ps user_id token now₁ now₂ now₃ now₄).1 = .ok r →
       allKeys (authResponse r) = ["token", "user", "id", "name", "email"] ∧
       ¬ "hashed_password" ∈ allKeys (authResponse r)) ∧
    (∀ r, (login H db pl token nl₁ nl₂).1 = .ok r →
       allKeys (authResponse r) = ["token", "user", "id", "name", "email"] ∧
       ¬ "hashed_password" ∈ allKeys (authResponse r)) ∧
    (∀ resp, me db auth = .ok resp →
       allKeys resp = ["id", "name", "email", "plan"] ∧
       ¬ "hashed_password" ∈ allKeys resp) := by
  refine ⟨fun r _ => ?_, fun r _ => ?_, fun resp h => ?_⟩
  · simp [authResponse, allKeys, JVal.keys]
  · simp [authResponse, allKeys, JVal.keys]
  · cases hr : require_auth db auth with
    | error e => rw [me, hr] at h; simp [Except.map] at h
    | ok ctx =>
      rw [me, hr] at h
      simp [Except.map] at h
      subst h
      simp [meResponse, allKeys, JVal.keys]

/-- Witness for C5: the three responses evaluated on the sample store. -/
theorem no_digest_in_responses_witness :
    ((signup sampleHash sampleDB ⟨"New", "new@example.com", "pw"⟩
        "u9" "T9" 1 2 3 4).1 = .ok ⟨"T9", ⟨"u9", "New", "new@example.com"⟩⟩ ∧
     allKeys (authResponse ⟨"T9", ⟨"u9", "New", "new@example.com"⟩⟩) =
        ["token", "user", "id", "name", "email"] ∧
     ¬ "hashed_password" ∈
        allKeys (authResponse ⟨"T9", ⟨"u9", "New", "new@example.com"⟩⟩)) ∧
    ((login sampleHash sampleDB ⟨"ada@example.com", "wolf123"⟩ "T2" 9 10).1 =
        .ok ⟨"T2", ⟨"u1", "Ada", "ada@example.com"⟩⟩) ∧
    (me sampleDB (some "Bearer T1") = .ok (meResponse adaUser) ∧
     allKeys (meResponse adaUser) = ["id", "name", "email", "plan"] ∧
     ¬ "hashed_password" ∈ allKeys (meResponse adaUser)) :=
  ⟨⟨by rfl,
    (no_digest_in_responses sampleHash sampleDB
        ⟨"New", "new@example.com", "pw"⟩ ⟨"ada@example.com", "wolf123"⟩
        "u9" "T9" 1 2 3 4 9 10 (some "Bearer T1")).1
      ⟨"T9", ⟨"u9", "New", "new@example.com"⟩⟩ (by rfl)⟩,
   by rfl,
   ⟨by rfl,
    (no_digest_in_responses sampleHash sampleDB
        ⟨"New", "new@example.com", "pw"⟩ ⟨"ada@example.com", "wolf123"⟩
        "u9" "T9" 1 2 3 4 9 10 (some "Bearer T1")).2.2 (meResponse adaUser) (by rfl)⟩⟩

/-- C10: watchlist deletion is owner-scoped: when no stored item matches
both the requested id and the caller's user id the endpoint fails with 404
Item not found and removes nothing; when the call succeeds, precisely one
item was removed and that item bore the requested id and the caller's
user id. -/
theorem delete_watchlist_owner_scoped (db : DB) (item_id : String)
    (ctx : Principal) :
    ((∀ i ∈ db.watchlist, ¬ (i.id = item_id ∧ i.user_id = ctx.user.id)) →
       delete_watchlist db item_id ctx =
         (.error ⟨404, "Item not found"⟩, db)) ∧
    (∀ r, (delete_watchlist db item_id ctx).1 = .ok r →
       ∃ l₁ i l₂, db.watchlist = l₁ ++ i :: l₂ ∧ i.id = item_id ∧
         i.user_id = ctx.user.id ∧
         (delete_watchlist db item_id ctx).2 =
           { db with watchlist := l₁ ++ l₂ }) := by
  constructor
  · intro hall
    have hf : find_one
        (fun i => i.id == item_id && i.user_id == ctx.user.id)
        db.watchlist = none := by
      refine find_one_eq_none.mpr ?_
      intro i hm
      simpa using hall i hm
    simp [delete_watchlist, hf]
  · intro r h
    cases hf : find_one
        (fun i => i.id == item_id && i.user_id == ctx.user.id)
        db.watchlist with
    | none => rw [delete_watchlist, hf] at h; simp at h
    | some i =>
      rcases find_one_eq_some_mem hf with ⟨-, hp⟩
      rcases find_one_some_split hf with ⟨l₁, l₂, hsplit, -, hdel⟩
      have hpp : i.id = item_id ∧ i.user_id = ctx.user.id := by
        simpa using hp
      exact ⟨l₁, i, l₂, hsplit, hpp.1, hpp.2,
        by rw [delete_watchlist, hf]; simp [hdel]⟩

/-- Witness for C10: deleting another user's item from the sample store
fails with 404 and changes nothing; deleting the caller's own item removes
exactly it. -/
theorem delete_watchlist_owner_scoped_witness :
    ((∀ i ∈ sampleDB.watchlist,
        ¬ (i.id = "w2" ∧ i.user_id = (⟨adaUser, adaSession⟩ : Principal).user.id)) ∧
     delete_watchlist sampleDB "w2" ⟨adaUser, adaSession⟩ =
       (.error ⟨404, "Item not found"⟩, sampleDB)) ∧
    ((delete_watchlist sampleDB "w1" ⟨adaUser, adaSession⟩).1 =
        .ok [("ok", .b true)] ∧
     ∃ l₁ i l₂, sampleDB.watchlist = l₁ ++ i :: l₂ ∧ i.id = "w1" ∧
       i.user_id = (⟨adaUser, adaSession⟩ : Principal).user.id ∧
       (delete_watchlist sampleDB "w1" ⟨adaUser, adaSession⟩).2 =
         { sampleDB with watchlist := l₁ ++ l₂ }) :=
  ⟨⟨by decide,
    (delete_watchlist_owner_scoped sampleDB "w2" ⟨adaUser, adaSession⟩).1
      (by decide)⟩,
   ⟨by rfl,
    (delete_watchlist_owner_scoped sampleDB "w1" ⟨adaUser, adaSession⟩).2
      [("ok", .b true)] (by rfl)⟩⟩

theorem require_auth_last_session (db : DB) (sess : SessionDoc) (u : UserDoc)
    (htok : ∀ s ∈ db.sessions, ¬ s.token = sess.token)
    (hu : find_one (fun v => v.id == sess.user_id) db.users = some u) :
    require_auth { db with sessions := db.sessions ++ [sess] }
        (some ("Bearer " ++ sess.token)) = .ok ⟨u, sess⟩ := by
  rw [require_auth_of_startswith _ _ (startswith_bearer_append sess.token)]
  simp only [dropChars_bearer_append]
  have h1 : find_one (fun s => s.token == sess.token) db.sessions = none :=
    find_one_eq_none.mpr fun s hm => by simpa using htok s hm
  have h2 : find_one (fun s : SessionDoc => s.token == sess.token)
      (db.sessions ++ [sess]) = some sess := by
    rw [find_one_append_none h1]
    simp [find_one]
  simp [h2, hu]

theorem require_auth_append_frame (db : DB) (xs : List SessionDoc)
    (a : String) (ctx : Principal)
    (h : require_auth db (some a) = .ok ctx) :
    require_auth { db with sessions := db.sessions ++ xs } (some a) =
      .ok ctx := by
  by_cases hpre : startswith a "Bearer " = true
  · rw [require_auth_of_startswith _ _ hpre] at h ⊢
    cases hs : find_one (fun s => s.token == dropChars a 7) db.sessions with
    | none => rw [hs] at h; simp at h
    | some s =>
      rw [hs] at h
      have hs2 : find_one (fun t : SessionDoc => t.token == dropChars a 7)
          (db.sessions ++ xs) = some s := find_one_append_some hs
      simpa [hs2] using h
  · exfalso
    have hm : require_auth db (some a) = .error ⟨401, "Missing token"⟩ :=
      (require_auth_missing_iff db (some a)).mpr (Or.inr ⟨a, rfl, hpre⟩)
    rw [h] at hm
    simp at hm

/-- C2: a token issued by a successful signup or login, presented as a
Bearer header against the store that call produced, authenticates to the
very user the session was issued for: for signup the freshly created user
record, for login the user record that matched the credentials. -/
theorem issued_token_authenticates (H : String → String) (db : DB)
    (ps : SignupRequest) (pl : LoginRequest) (user_id token : String)
    (now₁ now₂ now₃ now₄ nl₁ nl₂ : Nat)
    (hid : ∀ u ∈ db.users, ¬ u.id = user_id)
    (htok : ∀ s ∈ db.sessions, ¬ s.token = token)
    (hids : (db.users.map UserDoc.id).Nodup) :
    (∀ r, (signup H db ps user_id token now₁ now₂ now₃ now₄).1 = .ok r →
       require_auth (signup H db ps user_id token now₁ now₂ now₃ now₄).2
           (some ("Bearer " ++ token)) =
         .ok ⟨⟨user_id, ps.name, ps.email, hash_password H ps.password,
               none, "free", now₁, now₂⟩,
              ⟨user_id, token, now₃, now₄ + sevenDays⟩⟩) ∧
    (∀ r u, (login H db pl token nl₁ nl₂).1 = .ok r →
       find_one (fun v => v.email == pl.email) db.users = some u →
       require_auth (login H db pl token nl₁ nl₂).2
           (some ("Bearer " ++ token)) =
         .ok ⟨u, ⟨u.id, token, nl₁, nl₂ + sevenDays⟩⟩) := by
  constructor
  · intro r hok
    cases hf : find_one (fun v => v.email == ps.email) db.users with
    | some u => rw [signup_duplicate hf] at hok; simp at hok
    | none =>
      rw [signup_ok hf]
      have hu2 : find_one (fun v : UserDoc => v.id == user_id)
          (db.users ++
            [⟨user_id, ps.name, ps.email, hash_password H ps.password,
              none, "free", now₁, now₂⟩]) =
          some ⟨user_id, ps.name, ps.email, hash_password H ps.password,
            none, "free", now₁, now₂⟩ := by
        have h0 : find_one (fun v : UserDoc => v.id == user_id) db.users
            = none :=
          find_one_eq_none.mpr fun v hm => by simpa using hid v hm
        rw [find_one_append_none h0]
        simp [find_one]
      exact require_auth_last_session
        ⟨db.users ++
          [⟨user_id, ps.name, ps.email, hash_password H ps.password,
            none, "free", now₁, now₂⟩], db.sessions, db.watchlist⟩
        ⟨user_id, token, now₃, now₄ + sevenDays⟩ _ htok hu2
  · intro r u hok hu
    by_cases hd : u.hashed_password = hash_password H pl.password
    · rw [login_ok hu hd]
      have hm := (find_one_eq_some_mem hu).1
      rcases find_one_isSome_of_mem (p := fun v : UserDoc => v.id == u.id)
          hm (by simp) with ⟨w, hw⟩
      rcases find_one_eq_some_mem hw with ⟨hwm, hwp⟩
      have hwu : w = u :=
        List.inj_on_of_nodup_map hids hwm hm (by simpa using hwp)
      rw [hwu] at hw
      exact require_auth_last_session db
        ⟨u.id, token, nl₁, nl₂ + sevenDays⟩ u htok hw
    · rw [login_wrong_password hu hd] at hok
      simp at hok

/-- Witness for C2: the signup token and a login token on the sample
store both authenticate to their owner. -/
theorem issued_token_authenticates_witness :
    ((∀ u ∈ sampleDB.users, ¬ u.id = "u9") ∧
     (∀ s ∈ sampleDB.sessions, ¬ s.token = "T9") ∧
     (sampleDB.users.map UserDoc.id).Nodup) ∧
    ((signup sampleHash sampleDB ⟨"New", "new@example.com", "pw"⟩
        "u9" "T9" 1 2 3 4).1 = .ok ⟨"T9", ⟨"u9", "New", "new@example.com"⟩⟩ ∧
     require_auth (signup sampleHash sampleDB
          ⟨"New", "new@example.com", "pw"⟩ "u9" "T9" 1 2 3 4).2
        (some ("Bearer " ++ "T9")) =
       .ok ⟨⟨"u9", "New", "new@example.com", hash_password sampleHash "pw",
             none, "free", 1, 2⟩, ⟨"u9", "T9", 3, 4 + sevenDays⟩⟩) ∧
    ((login sampleHash sampleDB ⟨"ada@example.com", "wolf123"⟩ "T9" 9 10).1 =
        .ok ⟨"T9", ⟨"u1", "Ada", "ada@example.com"⟩⟩ ∧
     require_auth (login sampleHash sampleDB
          ⟨"ada@example.com", "wolf123"⟩ "T9" 9 10).2
        (some ("Bearer " ++ "T9")) =
       .ok ⟨adaUser, ⟨adaUser.id, "T9", 9, 10 + sevenDays⟩⟩) :=
  ⟨⟨by decide, by decide, by decide⟩,
   ⟨by rfl,
    (issued_token_authenticates sampleHash sampleDB
        ⟨"New", "new@example.com", "pw"⟩ ⟨"ada@example.com", "wolf123"⟩
        "u9" "T9" 1 2 3 4 9 10 (by decide) (by decide) (by decide)).1
      ⟨"T9", ⟨"u9", "New", "new@example.com"⟩⟩ (by rfl)⟩,
   ⟨by rfl,
    (issued_token_authenticates sampleHash sampleDB
        ⟨"New", "new@example.com", "pw"⟩ ⟨"ada@example.com", "wolf123"⟩
        "u9" "T9" 1 2 3 4 9 10 (by decide) (by decide) (by decide)).2
      ⟨"T9", ⟨"u1", "Ada", "ada@example.com"⟩⟩ adaUser (by rfl) (by rfl)⟩⟩

/-- C8: a successful login only appends one session record: every prior
session is still stored unchanged, the users and watchlist collections are
untouched, the new token differs from every previously stored token, and
any header that authenticated before the call still authenticates to the
identical principal afterwards. -/
theorem login_frame_effect (H : String → String) (db : DB)
    (pl : LoginRequest) (token : String) (now₁ now₂ : Nat)
    (r : AuthResult)
    (hok : (login H db pl token now₁ now₂).1 = .ok r)
    (htok : ∀ s ∈ db.sessions, ¬ s.token = token) :
    (∃ newSess : SessionDoc,
       (login H db pl token now₁ now₂).2.sessions = db.sessions ++ [newSess] ∧
       newSess.token = token) ∧
    (login H db pl token now₁ now₂).2.users = db.users ∧
    (login H db pl token now₁ now₂).2.watchlist = db.watchlist ∧
    (∀ s ∈ db.sessions,
       s ∈ (login H db pl token now₁ now₂).2.sessions ∧ ¬ s.token = token) ∧
    (∀ a ctx, require_auth db (some a) = .ok ctx →
       require_auth (login H db pl token now₁ now₂).2 (some a) = .ok ctx) := by
  cases hf : find_one (fun v => v.email == pl.email) db.users with
  | none => rw [login_no_user hf] at hok; simp at hok
  | some u =>
    by_cases hd : u.hashed_password = hash_password H pl.password
    · rw [login_ok hf hd]
      refine ⟨⟨⟨u.id, token, now₁, now₂ + sevenDays⟩, by simp, rfl⟩,
        by simp, by simp, ?_, ?_⟩
      · intro s hm
        exact ⟨by simp [hm], htok s hm⟩
      · intro a ctx h
        exact require_auth_append_frame db
          [⟨u.id, token, now₁, now₂ + sevenDays⟩] a ctx h
    · rw [login_wrong_password hf hd] at hok
      simp at hok

/-- Witness for C8: after Ada logs in again on the sample store, the old
session survives unchanged and the old token still resolves to the same
principal. -/
theorem login_frame_effect_witness :
    ((login sampleHash sampleDB ⟨"ada@example.com", "wolf123"⟩ "T2" 9 10).1 =
        .ok ⟨"T2", ⟨"u1", "Ada", "ada@example.com"⟩⟩ ∧
     (∀ s ∈ sampleDB.sessions, ¬ s.token = "T2")) ∧
    ((∃ newSess : SessionDoc,
       (login sampleHash sampleDB ⟨"ada@example.com", "wolf123"⟩
          "T2" 9 10).2.sessions = sampleDB.sessions ++ [newSess] ∧
       newSess.token = "T2") ∧
     (login sampleHash sampleDB ⟨"ada@example.com", "wolf123"⟩
        "T2" 9 10).2.users = sampleDB.users ∧
     (login sampleHash sampleDB ⟨"ada@example.com", "wolf123"⟩
        "T2" 9 10).2.watchlist = sampleDB.watchlist ∧
     (∀ s ∈ sampleDB.sessions,
        s ∈ (login sampleHash sampleDB ⟨"ada@example.com", "wolf123"⟩
          "T2" 9 10).2.sessions ∧ ¬ s.token = "T2") ∧
     (∀ a ctx, require_auth sampleDB (some a) = .ok ctx →
        require_auth (login sampleHash sampleDB
          ⟨"ada@example.com", "wolf123"⟩ "T2" 9 10).2 (some a) = .ok ctx)) :=
  ⟨⟨by rfl, by decide⟩,
   login_frame_effect sampleHash sampleDB ⟨"ada@example.com", "wolf123"⟩
     "T2" 9 10 ⟨"T2", ⟨"u1", "Ada", "ada@example.com"⟩⟩ (by rfl)
     (by decide)⟩

end Backend
